import Mathlib

/-!
# Verification of the awsls resource-listing pipeline (src/main.go)

A shallow embedding of the repository's `main.go`.  The program builds an AWS
client pool and a Terraform provider pool, matches a resource-type glob
pattern against the registry of supported types, and, per matched type and
per client, resolves the account identity, lists resources, queries the
provider schema for the requested attributes, conditionally hydrates live
state, and writes one CSV file per processed pattern.

External collaborators that live in this repository but outside `src/`
(`resource.MatchSupportedTypes`, `resource.HasAttributes`,
`resource.GetStates`, `resource.GetAttribute`, the client methods and the
pool constructors) are modelled from the spec, as documented on each
definition.  Per-client outcomes (account-identity resolution, listing,
schema queries) are oracles stored in the model of a client, so theorems
quantify over every possible behaviour of the external systems.

Go map iteration order is unspecified; the client pool is therefore modelled
as a list and theorems hold for every iteration order.
-/

namespace Awsls

/-- The (profile, region) Identity Key of one client/provider pairing
(`util.AWSClientKey`). -/
structure AWSClientKey where
  profile : String
  region : String
deriving DecidableEq, Repr

/-- Model of `aws.Resource`: type, id, optional creation timestamp (already
formatted, since only its presence matters to the export logic in `src/`),
the Identity Key of the originating client (used by state hydration to find
the matching provider), whether live state has been hydrated, and an oracle
for attribute extraction from the (opaque) Terraform state: `some v` means
`resource.GetAttribute` yields `v`, anything else means extraction fails. -/
structure Resource where
  rtype : String
  id : String
  createdAt : Option String
  originKey : AWSClientKey
  hydrated : Bool
  extractResults : List (String × Option String)
deriving DecidableEq, Repr

/-- Modelled from the spec: a provider instance (`provider.TerraformProvider`,
not under `src/`) can report, per resource type, which attribute names its
schema supports; a schema query for a type listed in `schemaFails` fails with
the recorded message, otherwise exactly the `(type, attr)` pairs in
`supportedAttrs` are supported. -/
structure ProviderBehavior where
  schemaFails : List (String × String)
  supportedAttrs : List (String × String)
deriving DecidableEq, Repr

/-- Outcome of `aws.ListResourcesByType` for one (client, type) pair. -/
inductive ListOutcome
  | err (msg : String)
  | ok (resources : List Resource)
deriving DecidableEq, Repr

/-- Modelled from the spec: an AWS client (`aws.Client`, not under `src/`)
bound to one Identity Key, with oracles for its two capabilities used by
`printResource`: account-identity resolution (`SetAccountID`; `some msg`
means it fails with that message) and per-type resource listing
(`ListResourcesByType`; types absent from `listResults` list as empty). -/
structure ClientBehavior where
  key : AWSClientKey
  setAccountIDError : Option String
  listResults : List (String × ListOutcome)
deriving DecidableEq, Repr

/-- Resource listing for one client and one resource type
(`aws.ListResourcesByType` viewed through the client's oracle). -/
def listFor (c : ClientBehavior) (rType : String) : ListOutcome :=
  match c.listResults.lookup rType with
  | some o => o
  | none => .ok []

/-- Go map indexing `providers[key]` returns the zero value for a missing
key.  Modelled from the spec: the pools are in 1:1 correspondence in a real
run; a missing key is modelled as a provider that supports no attributes. -/
def providerFor (providers : List (AWSClientKey × ProviderBehavior))
    (k : AWSClientKey) : ProviderBehavior :=
  (providers.lookup k).getD ⟨[], []⟩

/-- Outcome of `resource.HasAttributes`: a failed schema query, or the
support map (modelled as the list of its keys; the Go map's values are all
`true` and only key membership is ever read). -/
inductive SchemaOutcome
  | err (msg : String)
  | ok (supported : List String)
deriving DecidableEq, Repr

/-- Modelled from the spec: `resource.HasAttributes` (package `resource`, not
under `src/`) queries the provider schema for `rType` and returns the
mapping restricted to the requested attribute names confirmed present;
a schema-query failure returns an error (and the Go caller is left with a
nil, i.e. empty, map). -/
def HasAttributes (attributes : List String) (rType : String)
    (p : ProviderBehavior) : SchemaOutcome :=
  match p.schemaFails.lookup rType with
  | some m => .err m
  | none => .ok (attributes.filter (fun a => p.supportedAttrs.contains (rType, a)))

/-- Modelled from the spec: `resource.GetStates` (not under `src/`) hydrates
each resource through the provider matching its Identity Key; a resource
whose originating client has no corresponding provider is left unhydrated. -/
def GetStates (res : List Resource)
    (providers : List (AWSClientKey × ProviderBehavior)) : List Resource :=
  res.map fun r =>
    if (providers.lookup r.originKey).isSome then { r with hydrated := true } else r

/-- Modelled from the spec: `resource.GetAttribute` (not under `src/`)
extracts one attribute value from a resource's state; modelled through the
oracle stored on the resource (`none` = extraction failure). -/
def GetAttribute (attr : String) (r : Resource) : Option String :=
  match r.extractResults.lookup attr with
  | some (some v) => some v
  | _ => none

/-- Glob matching with fuel (the fuel is always sufficient: every step
consumes one pattern or subject character).  Modelled from the spec: the
Type Matcher resolves a glob-style pattern; `*` matches any character
sequence, every other character matches itself. -/
def globMatchFuel : Nat → List Char → List Char → Bool
  | 0, _, _ => false
  | _ + 1, [], s => s.isEmpty
  | n + 1, p :: ps, [] => p == '*' && globMatchFuel n ps []
  | n + 1, p :: ps, c :: cs =>
    if p == '*' then globMatchFuel n ps (c :: cs) || globMatchFuel n (p :: ps) cs
    else p == c && globMatchFuel n ps cs

/-- Whether a glob pattern matches a candidate resource-type name. -/
def globMatch (pattern s : String) : Bool :=
  globMatchFuel (pattern.length + s.length + 1) pattern.toList s.toList

/-- Modelled from the spec: the glob syntax is malformed exactly when the
pattern opens a character class; character classes are not modelled, so any
`[` makes the pattern malformed (mirroring `ErrBadPattern` for an unclosed
class). -/
def globValid (pattern : String) : Bool :=
  !pattern.toList.contains '['

/-- Modelled from the spec: `resource.MatchSupportedTypes` (not under `src/`)
resolves a glob pattern against the closed registry of supported
resource-type identifiers, returning `none` on a malformed pattern and the
ordered matched subset otherwise. -/
def MatchSupportedTypes (registry : List String) (pattern : String) :
    Option (List String) :=
  if globValid pattern then some (registry.filter (globMatch pattern)) else none

/-- A message printed to the error stream by `mainExitCode`/`printResource`,
tagged by source-code site. -/
inductive StderrMsg
  | mutuallyExclusiveFlags
  | loadProfilesError (msg : String)
  | noProfilesFound
  | poolError (msg : String)
  | invalidGlobPattern (pattern : String)
  | noResourceTypeFound (pattern : String)
  | accountIDError (rType msg : String)
  | listError (rType msg : String)
  | hasAttributesError (msg : String)
deriving DecidableEq, Repr

/-- Why the program panicked (Go `panic(err)` sites reachable in the model;
the file-system panics of `printResourcesCsv` are not modelled, CSV-writing
mechanics being outside the spec's scope). -/
inductive PanicReason
  | invalidGlob (pattern : String)
  | setAccountID (msg : String)
deriving DecidableEq, Repr

/-- One CSV file creation (`os.Create` truncates, so a later write to the
same path fully overwrites an earlier one). -/
structure FileWrite where
  path : String
  rows : List (List String)
deriving DecidableEq, Repr

/-- One debug-severity log entry emitted on attribute-extraction failure,
carrying the resource's type and id (`log.WithFields(...).Debug`). -/
structure DebugLog where
  rtype : String
  rid : String
deriving DecidableEq, Repr

/-- The observable effects of a run: error-stream messages, directory
creations, CSV file writes, debug-severity log entries, and the
`resource.GetStates` invocations (client key and resource type). -/
structure Output where
  stderr : List StderrMsg
  mkdirs : List String
  fileWrites : List FileWrite
  debugLogs : List DebugLog
  hydrations : List (AWSClientKey × String)
deriving DecidableEq, Repr

/-- The empty effect trace. -/
def emptyOutput : Output := ⟨[], [], [], [], []⟩

/-- The CSV header row written by `printHeaderCsv`:
`TYPE,ID,CREATED` followed by the requested attribute names. -/
def headerRow (attributes : List String) : List String :=
  ["TYPE", "ID", "CREATED"] ++ attributes

/-- One attribute cell of an export row (`printResourcesCsv`): `"N/A"` when
the attribute is not a key of the support map, the extracted value when
extraction succeeds, `"error"` when it fails. -/
def attrValue (hasAttrs : List String) (r : Resource) (attr : String) : String :=
  if hasAttrs.contains attr then
    match GetAttribute attr r with
    | some v => v
    | none => "error"
  else "N/A"

/-- One export row: type, id, formatted creation time (empty when absent),
then one cell per requested attribute in the requested order. -/
def formatRow (hasAttrs : List String) (attributes : List String)
    (r : Resource) : List String :=
  [r.rtype, r.id, r.createdAt.getD ""] ++ attributes.map (attrValue hasAttrs r)

/-- The debug log entries one resource contributes: one per requested
attribute that is in the support map but fails to extract. -/
def rowDebugLogs (hasAttrs : List String) (attributes : List String)
    (r : Resource) : List DebugLog :=
  attributes.filterMap fun attr =>
    if hasAttrs.contains attr && (GetAttribute attr r).isNone then
      some ⟨r.rtype, r.id⟩
    else none

/-- `printResourcesCsv`: the file written for one processed pattern (path
`aws-resources/<pattern>.csv`, header row, then one row per resource, every
row built from the same support map) together with the debug log entries
emitted while building the rows. -/
def printResourcesCsv (pattern : String) (resources : List Resource)
    (hasAttrs : List String) (attributes : List String) :
    FileWrite × List DebugLog :=
  (⟨"aws-resources/" ++ pattern ++ ".csv",
    headerRow attributes :: resources.map (formatRow hasAttrs attributes)⟩,
   resources.flatMap (rowDebugLogs hasAttrs attributes))

/-- Accumulator of the per-type client loop in `printResource`: the resource
collection, the current `hasAttrs` support map (a nil Go map initially,
modelled as `[]`), the error-stream messages emitted so far, and the keys of
the clients for which `resource.GetStates` was invoked. -/
structure ClientLoopResult where
  resources : List Resource
  hasAttrs : List String
  stderr : List StderrMsg
  hydrations : List AWSClientKey
deriving DecidableEq, Repr

/-- The initial client-loop accumulator (fresh `resources` and `hasAttrs`
variables per resource type). -/
def cl0 : ClientLoopResult := ⟨[], [], [], []⟩

/-- Result of the per-type client loop: normal completion or a panic. -/
inductive ClientLoopOut
  | panicked (msg : String) (st : ClientLoopResult)
  | ok (st : ClientLoopResult)
deriving DecidableEq, Repr

/-- The client loop of `printResource` for one resource type (`src/main.go`
lines 146-176): per client, resolve the account identity (error-stream
message and `panic` on failure), list the resources of the type (message and
`continue` on failure), recompute the support map through the provider with
the client's key (message, nil map and `continue` on failure — the fetched
resources are dropped), hydrate state through `resource.GetStates` only when
the support map is non-empty, and append the client's resources. -/
def processClients (rType : String) (attributes : List String)
    (providers : List (AWSClientKey × ProviderBehavior)) :
    List ClientBehavior → ClientLoopResult → ClientLoopOut
  | [], acc => .ok acc
  | c :: cs, acc =>
    match c.setAccountIDError with
    | some m =>
      .panicked m { acc with stderr := acc.stderr ++ [.accountIDError rType m] }
    | none =>
      match listFor c rType with
      | .err m =>
        processClients rType attributes providers cs
          { acc with stderr := acc.stderr ++ [.listError rType m] }
      | .ok res =>
        match HasAttributes attributes rType (providerFor providers c.key) with
        | .err m =>
          processClients rType attributes providers cs
            { acc with stderr := acc.stderr ++ [.hasAttributesError m],
                       hasAttrs := [] }
        | .ok s =>
          if s.isEmpty then
            processClients rType attributes providers cs
              { acc with hasAttrs := s, resources := acc.resources ++ res }
          else
            processClients rType attributes providers cs
              { acc with hasAttrs := s,
                         resources := acc.resources ++ GetStates res providers,
                         hydrations := acc.hydrations ++ [c.key] }

/-- Result of `printResource`: the effect trace, or a panic together with
the effects produced before it. -/
inductive RunResult
  | panicked (reason : PanicReason) (out : Output)
  | ok (out : Output)
deriving DecidableEq, Repr

/-- The effect trace of a run result (effects observed up to a panic). -/
def runOutput : RunResult → Output
  | .panicked _ out => out
  | .ok out => out

/-- Merge one type's client-loop effects into the global trace. -/
def mergeLoop (out : Output) (rType : String) (st : ClientLoopResult) : Output :=
  { out with stderr := out.stderr ++ st.stderr,
             hydrations := out.hydrations ++ st.hydrations.map (fun k => (k, rType)) }

/-- The `for _, rType := range matchedTypes` loop of `printResource`: run the
client loop for each matched type; skip the CSV step when the collected
resource list is empty, otherwise create the output directory and write
`aws-resources/<pattern>.csv` from the collected resources and the support
map left by the client loop. -/
def processTypes (pattern : String) (attributes : List String)
    (clients : List ClientBehavior)
    (providers : List (AWSClientKey × ProviderBehavior)) :
    List String → Output → RunResult
  | [], out => .ok out
  | t :: ts, out =>
    match processClients t attributes providers clients cl0 with
    | .panicked m st => .panicked (.setAccountID m) (mergeLoop out t st)
    | .ok st =>
      let out1 := mergeLoop out t st
      if st.resources.isEmpty then
        processTypes pattern attributes clients providers ts out1
      else
        let w := printResourcesCsv pattern st.resources st.hasAttrs attributes
        processTypes pattern attributes clients providers ts
          { out1 with mkdirs := out1.mkdirs ++ ["aws-resources"],
                      fileWrites := out1.fileWrites ++ [w.1],
                      debugLogs := out1.debugLogs ++ w.2 }

/-- `printResource` (`src/main.go` lines 131-183): resolve the pattern
against the registry (error-stream message and `panic` on a malformed
pattern), report when no resource type matches, then process each matched
type. -/
def printResource (pattern : String) (attributes : List String)
    (clients : List ClientBehavior)
    (providers : List (AWSClientKey × ProviderBehavior))
    (registry : List String) : RunResult :=
  match MatchSupportedTypes registry pattern with
  | none =>
    .panicked (.invalidGlob pattern)
      { emptyOutput with stderr := [.invalidGlobPattern pattern] }
  | some matched =>
    let out0 :=
      if matched.isEmpty then
        { emptyOutput with stderr := [.noResourceTypeFound pattern] }
      else emptyOutput
    processTypes pattern attributes clients providers matched out0

/-- Outcome of `aws_ssmhelpers.GetAWSProfiles` (external collaborator):
failure, or an optional profile list (`nil` when the config names none). -/
inductive ConfigProfiles
  | err (msg : String)
  | ok (profiles : Option (List String))
deriving DecidableEq, Repr

/-- Outcome of `util.NewAWSClientPool` (not under `src/`): failure, or the
client pool (modelled as a list, since Go map iteration order is
unspecified). -/
inductive ClientPoolOutcome
  | err (msg : String)
  | ok (clients : List ClientBehavior)
deriving DecidableEq, Repr

/-- Outcome of `util.NewProviderPool` (not under `src/`): failure, or the
provider pool keyed by Identity Key. -/
inductive ProviderPoolOutcome
  | err (msg : String)
  | ok (providers : List (AWSClientKey × ProviderBehavior))
deriving DecidableEq, Repr

/-- The inputs of one invocation of `mainExitCode`: parsed flag values, the
`AWS_PROFILE` environment variable, and the outcomes of the external
collaborators (profile discovery, client pool and provider pool
construction), plus the registry of supported resource types backing
`resource.MatchSupportedTypes`. -/
structure SetupInput where
  versionFlag : Bool
  profilesFlag : Option (List String)
  allProfilesFlag : Bool
  awsProfileEnv : Option String
  profilesFromConfig : ConfigProfiles
  clientPool : ClientPoolOutcome
  providerPool : ProviderPoolOutcome
  registry : List String
deriving Repr

/-- Profile-list resolution outcome in `mainExitCode`. -/
inductive ProfilesOutcome
  | err (msg : String)
  | noneFound
  | ok (profiles : List String)
deriving DecidableEq, Repr

/-- Profile resolution (`src/main.go` lines 71-97): an explicit
`--profiles` list wins; with `--all-profiles` the config file is consulted
(failure and an empty result are fatal); otherwise `AWS_PROFILE` supplies a
single profile, or none is set and the ambient default is used. -/
def resolveProfiles (i : SetupInput) : ProfilesOutcome :=
  if i.allProfilesFlag then
    match i.profilesFromConfig with
    | .err m => .err m
    | .ok none => .noneFound
    | .ok (some ps) => .ok ps
  else
    match i.profilesFlag with
    | some ps => .ok ps
    | none =>
      match i.awsProfileEnv with
      | some p => .ok [p]
      | none => .ok []

/-- The outcome of the whole process: a normal `os.Exit(code)` or an
unrecovered panic, each with the observable effect trace. -/
inductive ProcOutcome
  | exited (code : Nat) (out : Output)
  | panicked (reason : PanicReason) (out : Output)
deriving DecidableEq, Repr

/-- Whether the process outcome is an unrecovered panic. -/
def isPanicked : ProcOutcome → Bool
  | .panicked _ _ => true
  | _ => false

/-- The exit status the operating system observes: the `os.Exit` code on a
normal return, and `2` on an unrecovered panic (the Go runtime terminates a
panicking process with exit status 2). -/
def processExitCode : ProcOutcome → Nat
  | .exited c _ => c
  | .panicked _ _ => 2

/-- `mainExitCode` (`src/main.go` lines 27-129): `--version` prints and
exits 0; `--profiles` together with `--all-profiles` exits 1; profile
discovery, client pool construction and provider pool construction each
exit 1 on failure with a message; otherwise `printResource` runs with the
hard-coded pattern `aws_instance` and attribute list
`private_ip, public_ip, tags`, and the process exits 0 unless it panics. -/
def mainExitCode (i : SetupInput) : ProcOutcome :=
  if i.versionFlag then .exited 0 emptyOutput
  else if i.profilesFlag.isSome && i.allProfilesFlag then
    .exited 1 { emptyOutput with stderr := [.mutuallyExclusiveFlags] }
  else
    match resolveProfiles i with
    | .err m => .exited 1 { emptyOutput with stderr := [.loadProfilesError m] }
    | .noneFound => .exited 1 { emptyOutput with stderr := [.noProfilesFound] }
    | .ok _ =>
      match i.clientPool with
      | .err m => .exited 1 { emptyOutput with stderr := [.poolError m] }
      | .ok clients =>
        match i.providerPool with
        | .err m => .exited 1 { emptyOutput with stderr := [.poolError m] }
        | .ok providers =>
          match printResource "aws_instance" ["private_ip", "public_ip", "tags"]
              clients providers i.registry with
          | .ok out => .exited 0 out
          | .panicked r out => .panicked r out

/-! ## Compositional characterisation of the pipeline

The loops of `printResource` are accumulator-passing; the definitions below
restate each client's and each type's contribution compositionally, and the
lemmas prove the two presentations equal.  All claim theorems are stated and
proved against these. -/

/-- The resources one client contributes to the per-type collection: nothing
when its listing or its schema query fails (the `continue` paths), its listed
resources otherwise — hydrated through `resource.GetStates` exactly when the
recomputed support map is non-empty. -/
def clientContribution (rType : String) (attributes : List String)
    (providers : List (AWSClientKey × ProviderBehavior))
    (c : ClientBehavior) : List Resource :=
  match listFor c rType with
  | .err _ => []
  | .ok res =>
    match HasAttributes attributes rType (providerFor providers c.key) with
    | .err _ => []
    | .ok s => if s.isEmpty then res else GetStates res providers

/-- The error-stream messages one client emits during the per-type loop
(given that its account-identity resolution succeeded). -/
def clientStderr (rType : String) (attributes : List String)
    (providers : List (AWSClientKey × ProviderBehavior))
    (c : ClientBehavior) : List StderrMsg :=
  match listFor c rType with
  | .err m => [.listError rType m]
  | .ok _ =>
    match HasAttributes attributes rType (providerFor providers c.key) with
    | .err m => [.hasAttributesError m]
    | .ok _ => []

/-- The `resource.GetStates` invocations one client triggers: exactly one,
when its listing succeeds and its schema query yields a non-empty support
map. -/
def clientHyd (rType : String) (attributes : List String)
    (providers : List (AWSClientKey × ProviderBehavior))
    (c : ClientBehavior) : List AWSClientKey :=
  match listFor c rType with
  | .err _ => []
  | .ok _ =>
    match HasAttributes attributes rType (providerFor providers c.key) with
    | .err _ => []
    | .ok s => if s.isEmpty then [] else [c.key]

/-- How one client updates the shared `hasAttrs` variable: left unchanged
when the listing fails (the schema query is never reached), reset to the nil
map when the schema query fails, replaced by the query result otherwise. -/
def updateHasAttrs (rType : String) (attributes : List String)
    (providers : List (AWSClientKey × ProviderBehavior))
    (h : List String) (c : ClientBehavior) : List String :=
  match listFor c rType with
  | .err _ => h
  | .ok _ =>
    match HasAttributes attributes rType (providerFor providers c.key) with
    | .err _ => []
    | .ok s => s

/-- The full resource collection accumulated for one type across all
clients. -/
def typeResources (attributes : List String)
    (providers : List (AWSClientKey × ProviderBehavior))
    (clients : List ClientBehavior) (t : String) : List Resource :=
  clients.flatMap (clientContribution t attributes providers)

/-- The support map left in `hasAttrs` when the client loop for one type
finishes: the value produced by whichever client's schema query ran last
(nil when none ran). -/
def typeHasAttrs (attributes : List String)
    (providers : List (AWSClientKey × ProviderBehavior))
    (clients : List ClientBehavior) (t : String) : List String :=
  clients.foldl (updateHasAttrs t attributes providers) []

/-- The error-stream messages of one type's client loop. -/
def typeStderr (attributes : List String)
    (providers : List (AWSClientKey × ProviderBehavior))
    (clients : List ClientBehavior) (t : String) : List StderrMsg :=
  clients.flatMap (clientStderr t attributes providers)

/-- The `resource.GetStates` invocations of one type's client loop. -/
def typeHyd (attributes : List String)
    (providers : List (AWSClientKey × ProviderBehavior))
    (clients : List ClientBehavior) (t : String) : List (AWSClientKey × String) :=
  (clients.flatMap (clientHyd t attributes providers)).map (fun k => (k, t))

/-- Whether one type's accumulated resource collection is non-empty (the
guard deciding whether a CSV file is written for it). -/
def typeNonEmpty (attributes : List String)
    (providers : List (AWSClientKey × ProviderBehavior))
    (clients : List ClientBehavior) (t : String) : Bool :=
  !(typeResources attributes providers clients t).isEmpty

/-- The CSV file written for one type (when its collection is non-empty). -/
def typeWrite (pattern : String) (attributes : List String)
    (providers : List (AWSClientKey × ProviderBehavior))
    (clients : List ClientBehavior) (t : String) : FileWrite :=
  (printResourcesCsv pattern (typeResources attributes providers clients t)
    (typeHasAttrs attributes providers clients t) attributes).1

/-- The debug log entries emitted while writing one type's CSV file. -/
def typeLogs (pattern : String) (attributes : List String)
    (providers : List (AWSClientKey × ProviderBehavior))
    (clients : List ClientBehavior) (t : String) : List DebugLog :=
  (printResourcesCsv pattern (typeResources attributes providers clients t)
    (typeHasAttrs attributes providers clients t) attributes).2

/-- The full effect trace of a normally completed `printResource` run. -/
def runSpec (pattern : String) (attributes : List String)
    (clients : List ClientBehavior)
    (providers : List (AWSClientKey × ProviderBehavior))
    (matched : List String) : Output :=
  { stderr := (if matched.isEmpty then [StderrMsg.noResourceTypeFound pattern] else []) ++
      matched.flatMap (typeStderr attributes providers clients),
    mkdirs := (matched.filter (typeNonEmpty attributes providers clients)).map
      (fun _ => "aws-resources"),
    fileWrites := (matched.filter (typeNonEmpty attributes providers clients)).map
      (typeWrite pattern attributes providers clients),
    debugLogs := (matched.filter (typeNonEmpty attributes providers clients)).flatMap
      (typeLogs pattern attributes providers clients),
    hydrations := matched.flatMap (typeHyd attributes providers clients) }

/-- The support map used for export: the value `hasAttrs` holds after the
client loop, i.e. the result of whichever client's schema query ran last
(nil when the last query failed or none ever ran). -/
def lastSchemaComputed (rType : String) (attributes : List String)
    (providers : List (AWSClientKey × ProviderBehavior))
    (clients : List ClientBehavior) : List String :=
  clients.foldl (updateHasAttrs rType attributes providers) []

/-- Whether at least one requested attribute is supported by the provider
schema for the given client key — the right-hand side of claim C1's
"if and only if", independent of listing or query success. -/
def providerSupportsSome (providers : List (AWSClientKey × ProviderBehavior))
    (k : AWSClientKey) (rType : String) (attributes : List String) : Bool :=
  attributes.any fun a => (providerFor providers k).supportedAttrs.contains (rType, a)

/-! ## Concrete fixtures used by counterexamples and witnesses -/

/-- A first Identity Key. -/
def kA : AWSClientKey := ⟨"dev", "us-east-1"⟩

/-- A second Identity Key. -/
def kB : AWSClientKey := ⟨"prod", "eu-west-1"⟩

/-- An `aws_instance` resource listed by the client with key `kA`. -/
def resA : Resource := ⟨"aws_instance", "i-a", none, kA, false, []⟩

/-- An `aws_instance` resource listed by the client with key `kB`. -/
def resB : Resource := ⟨"aws_instance", "i-b", none, kB, false, []⟩

/-- An `aws_iam_role` resource listed by the client with key `kA`. -/
def resRole : Resource := ⟨"aws_iam_role", "role-1", none, kA, false, []⟩

/-- A resource whose `tags` extraction fails. -/
def resFail : Resource := ⟨"aws_instance", "i-err", none, kA, false, [("tags", none)]⟩

/-- A provider supporting no attribute at all. -/
def provNone : ProviderBehavior := ⟨[], []⟩

/-- A provider supporting `tags` on `aws_instance`. -/
def provTags : ProviderBehavior := ⟨[], [("aws_instance", "tags")]⟩

/-- A provider supporting `private_ip` on `aws_instance`. -/
def provPrivIp : ProviderBehavior := ⟨[], [("aws_instance", "private_ip")]⟩

/-- A provider whose schema query fails for `aws_instance`. -/
def provSchemaErr : ProviderBehavior := ⟨[("aws_instance", "schema boom")], []⟩

/-- A client (key `kA`) that lists one `aws_instance` successfully. -/
def clientOkA : ClientBehavior := ⟨kA, none, [("aws_instance", .ok [resA])]⟩

/-- A client (key `kB`) that lists one `aws_instance` successfully. -/
def clientOkB : ClientBehavior := ⟨kB, none, [("aws_instance", .ok [resB])]⟩

/-- A client whose `aws_instance` listing fails. -/
def clientListErrA : ClientBehavior := ⟨kA, none, [("aws_instance", .err "listing failed")]⟩

/-- A client whose account-identity resolution fails. -/
def clientDenied : ClientBehavior := ⟨kA, some "denied", [("aws_instance", .ok [resA])]⟩

/-- A client listing resources for two types (`aws_instance`, `aws_iam_role`). -/
def clientTwoTypes : ClientBehavior :=
  ⟨kA, none, [("aws_instance", .ok [resA]), ("aws_iam_role", .ok [resRole])]⟩

/-- A registry holding the two resource types used by the fixtures. -/
def regTwo : List String := ["aws_instance", "aws_iam_role"]

/-- The client-loop accumulator left by `[clientOkA]` with `provNone`:
the fetched resource, no supported attribute, no message, no hydration. -/
def c1St : ClientLoopResult := ⟨[resA], [], [], []⟩

/-- The client-loop accumulator left by `[clientOkA, clientOkB]` with the
providers `provTags`/`provPrivIp`: both resources hydrated, and `hasAttrs`
holding the last computed support map. -/
def c4St : ClientLoopResult :=
  ⟨[{ resA with hydrated := true }, { resB with hydrated := true }],
   ["private_ip"], [], [kA, kB]⟩

/-- Setup input whose sole client fails account-identity resolution. -/
def c5Input : SetupInput :=
  { versionFlag := false, profilesFlag := none, allProfilesFlag := false,
    awsProfileEnv := none, profilesFromConfig := .ok none,
    clientPool := .ok [clientDenied],
    providerPool := .ok [(kA, provNone)],
    registry := ["aws_instance"] }

/-- Setup input whose sole client's listing fails (a per-client error). -/
def c10Input : SetupInput :=
  { versionFlag := false, profilesFlag := none, allProfilesFlag := false,
    awsProfileEnv := none, profilesFromConfig := .ok none,
    clientPool := .ok [clientListErrA],
    providerPool := .ok [(kA, provTags)],
    registry := ["aws_instance"] }

/-- When every client's account-identity resolution succeeds, the client
loop completes normally and its accumulator is the compositional
combination of the per-client contributions. -/
theorem processClients_eq (rType : String) (attributes : List String)
    (providers : List (AWSClientKey × ProviderBehavior)) :
    ∀ (clients : List ClientBehavior) (acc : ClientLoopResult),
      (∀ c ∈ clients, c.setAccountIDError = none) →
      processClients rType attributes providers clients acc =
        .ok ⟨acc.resources ++ clients.flatMap (clientContribution rType attributes providers),
             clients.foldl (updateHasAttrs rType attributes providers) acc.hasAttrs,
             acc.stderr ++ clients.flatMap (clientStderr rType attributes providers),
             acc.hydrations ++ clients.flatMap (clientHyd rType attributes providers)⟩ := by
  intro clients
  induction clients with
  | nil => intro acc _; simp [processClients]
  | cons c cs ih =>
    intro acc h
    have hc : c.setAccountIDError = none := h c (List.mem_cons_self c cs)
    have hcs : ∀ x ∈ cs, x.setAccountIDError = none :=
      fun x hx => h x (List.mem_cons_of_mem c hx)
    simp only [processClients, hc]
    cases hl : listFor c rType with
    | err m =>
      simp [ih _ hcs, clientContribution, clientStderr, clientHyd, updateHasAttrs,
        hl, List.append_assoc]
    | ok res =>
      cases hs : HasAttributes attributes rType (providerFor providers c.key) with
      | err m =>
        simp [ih _ hcs, clientContribution, clientStderr, clientHyd, updateHasAttrs,
          hl, hs, List.append_assoc]
      | ok s =>
        cases hse : s.isEmpty with
        | true =>
          simp [ih _ hcs, clientContribution, clientStderr, clientHyd, updateHasAttrs,
            hl, hs, hse, List.append_assoc]
        | false =>
          simp [ih _ hcs, clientContribution, clientStderr, clientHyd, updateHasAttrs,
            hl, hs, hse, List.append_assoc]

/-- A normally completed client loop implies that no client's
account-identity resolution failed. -/
theorem processClients_ok_none (rType : String) (attributes : List String)
    (providers : List (AWSClientKey × ProviderBehavior)) :
    ∀ (clients : List ClientBehavior) (acc : ClientLoopResult)
      (st : ClientLoopResult),
      processClients rType attributes providers clients acc = .ok st →
      ∀ c ∈ clients, c.setAccountIDError = none := by
  intro clients
  induction clients with
  | nil => intro acc st _ c hc; exact absurd hc (List.not_mem_nil c)
  | cons c cs ih =>
    intro acc st heq c' hc'
    rcases List.mem_cons.mp hc' with rfl | hmem
    · cases hsa : c'.setAccountIDError with
      | none => rfl
      | some m => simp [processClients, hsa] at heq
    · cases hsa : c.setAccountIDError with
      | some m => simp [processClients, hsa] at heq
      | none =>
        simp only [processClients, hsa] at heq
        cases hl : listFor c rType with
        | err m => simp only [hl] at heq; exact ih _ _ heq c' hmem
        | ok res =>
          simp only [hl] at heq
          cases hs : HasAttributes attributes rType (providerFor providers c.key) with
          | err m => simp only [hs] at heq; exact ih _ _ heq c' hmem
          | ok s =>
            simp only [hs] at heq
            cases hse : s.isEmpty with
            | true => rw [if_pos hse] at heq; exact ih _ _ heq c' hmem
            | false =>
              rw [if_neg (by simp [hse])] at heq
              exact ih _ _ heq c' hmem

/-- When some client's account-identity resolution fails, the client loop
panics, after printing the corresponding error-stream message. -/
theorem processClients_panicked (rType : String) (attributes : List String)
    (providers : List (AWSClientKey × ProviderBehavior)) :
    ∀ (clients : List ClientBehavior) (acc : ClientLoopResult),
      (∃ c ∈ clients, c.setAccountIDError ≠ none) →
      ∃ m st, processClients rType attributes providers clients acc = .panicked m st ∧
        .accountIDError rType m ∈ st.stderr := by
  intro clients
  induction clients with
  | nil => intro acc h; obtain ⟨c, hc, _⟩ := h; exact absurd hc (List.not_mem_nil c)
  | cons c cs ih =>
    intro acc h
    cases hsa : c.setAccountIDError with
    | some m =>
      refine ⟨m, { acc with stderr := acc.stderr ++ [.accountIDError rType m] }, ?_, ?_⟩
      · simp only [processClients, hsa]
      · exact List.mem_append_right _ (List.mem_singleton.mpr rfl)
    | none =>
      obtain ⟨c', hc', hne⟩ := h
      rcases List.mem_cons.mp hc' with rfl | hmem
      · exact absurd hsa hne
      · have hex : ∃ x ∈ cs, x.setAccountIDError ≠ none := ⟨c', hmem, hne⟩
        simp only [processClients, hsa]
        cases hl : listFor c rType with
        | err m => exact ih _ hex
        | ok res =>
          cases hs : HasAttributes attributes rType (providerFor providers c.key) with
          | err m => exact ih _ hex
          | ok s =>
            simp only []
            cases hse : s.isEmpty with
            | true => rw [if_pos rfl]; exact ih _ hex
            | false => rw [if_neg (by simp)]; exact ih _ hex

/-- When every client's account-identity resolution succeeds, the type loop
completes normally with the compositional effect trace. -/
theorem processTypes_eq (pattern : String) (attributes : List String)
    (clients : List ClientBehavior)
    (providers : List (AWSClientKey × ProviderBehavior))
    (hnp : ∀ c ∈ clients, c.setAccountIDError = none) :
    ∀ (ts : List String) (out : Output),
      processTypes pattern attributes clients providers ts out =
        .ok { stderr := out.stderr ++ ts.flatMap (typeStderr attributes providers clients),
              mkdirs := out.mkdirs ++
                (ts.filter (typeNonEmpty attributes providers clients)).map
                  (fun _ => "aws-resources"),
              fileWrites := out.fileWrites ++
                (ts.filter (typeNonEmpty attributes providers clients)).map
                  (typeWrite pattern attributes providers clients),
              debugLogs := out.debugLogs ++
                (ts.filter (typeNonEmpty attributes providers clients)).flatMap
                  (typeLogs pattern attributes providers clients),
              hydrations := out.hydrations ++
                ts.flatMap (typeHyd attributes providers clients) } := by
  intro ts
  induction ts with
  | nil => intro out; simp [processTypes]
  | cons t ts ih =>
    intro out
    simp only [processTypes]
    rw [processClients_eq t attributes providers clients cl0 hnp]
    simp only [cl0, List.nil_append]
    cases hne : (clients.flatMap (clientContribution t attributes providers)).isEmpty with
    | true =>
      rw [if_pos rfl, ih]
      simp [mergeLoop, typeStderr, typeHyd, typeResources, typeNonEmpty, hne,
        List.append_assoc, List.filter_cons]
    | false =>
      rw [if_neg (by simp), ih]
      simp [mergeLoop, typeStderr, typeHyd, typeResources, typeHasAttrs, typeNonEmpty,
        typeWrite, typeLogs, printResourcesCsv, hne, List.append_assoc, List.filter_cons]

/-- When some client's account-identity resolution fails and at least one
type matched, the type loop panics after printing the corresponding
error-stream message for the first matched type. -/
theorem processTypes_panicked (pattern : String) (attributes : List String)
    (clients : List ClientBehavior)
    (providers : List (AWSClientKey × ProviderBehavior))
    (t : String) (ts : List String) (out : Output)
    (hex : ∃ c ∈ clients, c.setAccountIDError ≠ none) :
    ∃ m o, processTypes pattern attributes clients providers (t :: ts) out =
        .panicked (.setAccountID m) o ∧ .accountIDError t m ∈ o.stderr := by
  obtain ⟨m, st, heq, hmem⟩ :=
    processClients_panicked t attributes providers clients cl0 hex
  refine ⟨m, mergeLoop out t st, ?_, ?_⟩
  · simp only [processTypes, heq]
  · exact List.mem_append_right _ hmem

/-- A normally completed type loop over a non-empty type list implies that
no client's account-identity resolution failed. -/
theorem processTypes_ok_none (pattern : String) (attributes : List String)
    (clients : List ClientBehavior)
    (providers : List (AWSClientKey × ProviderBehavior))
    (t : String) (ts : List String) (out : Output) (o : Output)
    (h : processTypes pattern attributes clients providers (t :: ts) out = .ok o) :
    ∀ c ∈ clients, c.setAccountIDError = none := by
  by_contra hne
  push_neg at hne
  obtain ⟨m, o', heq, _⟩ :=
    processTypes_panicked pattern attributes clients providers t ts out hne
  rw [heq] at h
  exact RunResult.noConfusion h

/-- When the pattern is well formed and every client's account-identity
resolution succeeds, `printResource` completes normally with the
compositional effect trace. -/
theorem printResource_eq (pattern : String) (attributes : List String)
    (clients : List ClientBehavior)
    (providers : List (AWSClientKey × ProviderBehavior))
    (registry : List String) (matched : List String)
    (hv : MatchSupportedTypes registry pattern = some matched)
    (hnp : ∀ c ∈ clients, c.setAccountIDError = none) :
    printResource pattern attributes clients providers registry =
      .ok (runSpec pattern attributes clients providers matched) := by
  simp only [printResource, hv]
  rw [processTypes_eq pattern attributes clients providers hnp matched _]
  cases hM : matched.isEmpty <;>
    simp [hM, emptyOutput, runSpec]

/-! ## Row-indexing helper lemmas -/

/-- Indexing the written CSV rows past the header yields the row of the
corresponding resource. -/
theorem csv_rows_getElem (pattern : String) (resources : List Resource)
    (hasAttrs attributes : List String) (i : Nat) (hi : i < resources.length) :
    (printResourcesCsv pattern resources hasAttrs attributes).1.rows[i + 1]? =
      some (formatRow hasAttrs attributes resources[i]) := by
  simp [printResourcesCsv, List.getElem?_cons_succ, List.getElem?_map,
    List.getElem?_eq_getElem hi]

/-- Indexing an export row at offset `j + 3` (past the fixed
type/id/created columns) yields the cell of the `j`-th requested
attribute. -/
theorem formatRow_getElem_attr (hasAttrs : List String) (attributes : List String)
    (r : Resource) (j : Nat) (hj : j < attributes.length) :
    (formatRow hasAttrs attributes r)[j + 3]? =
      some (attrValue hasAttrs r attributes[j]) := by
  simp [formatRow, List.cons_append, List.nil_append, List.getElem?_cons_succ,
    List.getElem?_map, List.getElem?_eq_getElem hj]

/-! ## Claim theorems -/

/-- C6 (counterexample): for the malformed glob pattern `[`, `printResource`
does report an invalid-pattern error on the error stream, but then panics —
the run aborts instead of continuing with the next pattern, refuting the
claim that a malformed pattern is a per-type, non-fatal error. -/
theorem c6_counterexample :
    printResource "[" ["tags"] [] [] ["aws_instance"] =
      .panicked (.invalidGlob "[")
        { emptyOutput with stderr := [.invalidGlobPattern "["] } := by decide

/-- C6 (amended): for every malformed glob pattern, the Type Matcher
failure is reported as an invalid-pattern error on the error stream and the
run then aborts by panicking (`panic(err)` in `printResource`); the error is
fatal, not a per-type error after which the run continues. -/
theorem c6_invalid_glob_panics (pattern : String) (attributes : List String)
    (clients : List ClientBehavior)
    (providers : List (AWSClientKey × ProviderBehavior)) (registry : List String)
    (h : globValid pattern = false) :
    printResource pattern attributes clients providers registry =
      .panicked (.invalidGlob pattern)
        { emptyOutput with stderr := [.invalidGlobPattern pattern] } := by
  simp [printResource, MatchSupportedTypes, h]

/-- C6 witness: the amended theorem at the concrete malformed pattern `[`. -/
theorem c6_invalid_glob_panics_witness :
    globValid "[" = false ∧
    printResource "[" [] [] [] [] =
      .panicked (.invalidGlob "[")
        { emptyOutput with stderr := [.invalidGlobPattern "["] } :=
  ⟨by decide, c6_invalid_glob_panics "[" [] [] [] [] (by decide)⟩

/-- C7: for every well-formed pattern matching zero supported types, a
diagnostic is reported on the error stream, no output file is created and no
directory, and the run continues (`printResource` returns normally, so the
process goes on to exit 0). -/
theorem c7_zero_matches (pattern : String) (attributes : List String)
    (clients : List ClientBehavior)
    (providers : List (AWSClientKey × ProviderBehavior)) (registry : List String)
    (h : MatchSupportedTypes registry pattern = some []) :
    printResource pattern attributes clients providers registry =
      .ok { emptyOutput with stderr := [.noResourceTypeFound pattern] } := by
  simp [printResource, h, processTypes]

/-- C7 witness: the pattern `zzz` is well formed but matches nothing in a
registry holding only `aws_instance`. -/
theorem c7_zero_matches_witness :
    MatchSupportedTypes ["aws_instance"] "zzz" = some [] ∧
    printResource "zzz" ["tags"] [clientOkA] [(kA, provTags)] ["aws_instance"] =
      .ok { emptyOutput with stderr := [.noResourceTypeFound "zzz"] } :=
  ⟨by decide,
   c7_zero_matches "zzz" ["tags"] [clientOkA] [(kA, provTags)] ["aws_instance"]
     (by decide)⟩

/-- C8: in every exported row, every requested attribute that is not a key
of the support map used for export is emitted as exactly the literal string
`N/A` (row `i + 1` of the file is the row of resource `i`, and its cell at
offset `j + 3` is the cell of requested attribute `j`). -/
theorem c8_na_sentinel (pattern : String) (resources : List Resource)
    (hasAttrs attributes : List String) (i j : Nat)
    (hi : i < resources.length) (hj : j < attributes.length)
    (hns : hasAttrs.contains attributes[j] = false) :
    (printResourcesCsv pattern resources hasAttrs attributes).1.rows[i + 1]? =
      some (formatRow hasAttrs attributes resources[i]) ∧
    (formatRow hasAttrs attributes resources[i])[j + 3]? = some "N/A" := by
  have hns' : attributes[j] ∉ hasAttrs := by simpa using hns
  refine ⟨csv_rows_getElem pattern resources hasAttrs attributes i hi, ?_⟩
  rw [formatRow_getElem_attr hasAttrs attributes _ j hj]
  simp [attrValue, hns']

/-- C8 witness: with an empty support map, the sole attribute cell of the
sole resource's row reads `N/A`. -/
theorem c8_na_sentinel_witness :
    (0 < [resA].length ∧ 0 < ["tags"].length ∧
      ([] : List String).contains "tags" = false) ∧
    ((printResourcesCsv "aws_instance" [resA] [] ["tags"]).1.rows[0 + 1]? =
       some (formatRow [] ["tags"] [resA][0]) ∧
     (formatRow [] ["tags"] [resA][0])[0 + 3]? = some "N/A") :=
  ⟨⟨by decide, by decide, by decide⟩,
   c8_na_sentinel "aws_instance" [resA] [] ["tags"] 0 0 (by decide) (by decide)
     (by decide)⟩

/-- C9: in every exported row, a requested attribute that is a key of the
support map but whose extraction fails is emitted as exactly the literal
string `error`, and a debug-severity log entry carrying the resource's type
and id is emitted; the export path has no abort branch for extraction
failure (the model of `printResourcesCsv` is total in the extraction
oracle). -/
theorem c9_error_sentinel (pattern : String) (resources : List Resource)
    (hasAttrs attributes : List String) (i j : Nat)
    (hi : i < resources.length) (hj : j < attributes.length)
    (hsup : hasAttrs.contains attributes[j] = true)
    (hfail : GetAttribute attributes[j] resources[i] = none) :
    (printResourcesCsv pattern resources hasAttrs attributes).1.rows[i + 1]? =
      some (formatRow hasAttrs attributes resources[i]) ∧
    (formatRow hasAttrs attributes resources[i])[j + 3]? = some "error" ∧
    (⟨resources[i].rtype, resources[i].id⟩ : DebugLog) ∈
      (printResourcesCsv pattern resources hasAttrs attributes).2 := by
  have hsup' : attributes[j] ∈ hasAttrs := by simpa using hsup
  refine ⟨csv_rows_getElem pattern resources hasAttrs attributes i hi, ?_, ?_⟩
  · rw [formatRow_getElem_attr hasAttrs attributes _ j hj]
    simp [attrValue, hsup', hfail]
  · show _ ∈ resources.flatMap (rowDebugLogs hasAttrs attributes)
    refine List.mem_flatMap.mpr ⟨resources[i], List.getElem_mem hi, ?_⟩
    refine List.mem_filterMap.mpr ⟨attributes[j], List.getElem_mem hj, ?_⟩
    simp [hsup', hfail]

/-- C9 witness: a resource whose `tags` extraction fails exports the cell
`error` and emits the debug log entry with its type and id. -/
theorem c9_error_sentinel_witness :
    (0 < [resFail].length ∧ 0 < ["tags"].length ∧
      (["tags"] : List String).contains "tags" = true ∧
      GetAttribute "tags" resFail = none) ∧
    ((printResourcesCsv "aws_instance" [resFail] ["tags"] ["tags"]).1.rows[0 + 1]? =
       some (formatRow ["tags"] ["tags"] [resFail][0]) ∧
     (formatRow ["tags"] ["tags"] [resFail][0])[0 + 3]? = some "error" ∧
     (⟨[resFail][0].rtype, [resFail][0].id⟩ : DebugLog) ∈
       (printResourcesCsv "aws_instance" [resFail] ["tags"] ["tags"]).2) :=
  ⟨⟨by decide, by decide, by decide, by decide⟩,
   c9_error_sentinel "aws_instance" [resFail] ["tags"] ["tags"] 0 0 (by decide)
     (by decide) (by decide) (by decide)⟩

/-- C4: for every resource type, the support map is recomputed for each
client reaching the schema query (the `updateHasAttrs` fold over the clients
in iteration order), the map left for export is the one produced by
whichever client's schema query was computed last (nil when that query
failed), and that single map is applied uniformly to every client's
resources when building the export rows. -/
theorem c4_last_writer_support_map (pattern rType : String)
    (attributes : List String)
    (providers : List (AWSClientKey × ProviderBehavior))
    (clients : List ClientBehavior) (st : ClientLoopResult)
    (h : processClients rType attributes providers clients cl0 = .ok st) :
    st.hasAttrs = lastSchemaComputed rType attributes providers clients ∧
    (printResourcesCsv pattern st.resources st.hasAttrs attributes).1.rows =
      headerRow attributes ::
        st.resources.map
          (formatRow (lastSchemaComputed rType attributes providers clients)
            attributes) := by
  have hnp := processClients_ok_none rType attributes providers clients cl0 st h
  rw [processClients_eq rType attributes providers clients cl0 hnp] at h
  injection h with h'
  subst h'
  constructor
  · simp [cl0, lastSchemaComputed]
  · simp [printResourcesCsv, cl0, lastSchemaComputed]

/-- C4 witness: with two clients whose providers support different
attributes, the exported support map is the second (last) client's
(`private_ip`), applied to both clients' rows. -/
theorem c4_last_writer_support_map_witness :
    processClients "aws_instance" ["private_ip", "tags"]
        [(kA, provTags), (kB, provPrivIp)] [clientOkA, clientOkB] cl0 = .ok c4St ∧
    (c4St.hasAttrs =
        lastSchemaComputed "aws_instance" ["private_ip", "tags"]
          [(kA, provTags), (kB, provPrivIp)] [clientOkA, clientOkB] ∧
      (printResourcesCsv "aws_instance" c4St.resources c4St.hasAttrs
          ["private_ip", "tags"]).1.rows =
        headerRow ["private_ip", "tags"] ::
          c4St.resources.map
            (formatRow
              (lastSchemaComputed "aws_instance" ["private_ip", "tags"]
                [(kA, provTags), (kB, provPrivIp)] [clientOkA, clientOkB])
              ["private_ip", "tags"])) :=
  ⟨by decide,
   c4_last_writer_support_map "aws_instance" "aws_instance" ["private_ip", "tags"]
     [(kA, provTags), (kB, provPrivIp)] [clientOkA, clientOkB] c4St (by decide)⟩

/-- C5 (counterexample): with one client whose account-identity resolution
fails, the run is aborted — but through a panic, so the process terminates
with the Go panic exit status 2, not with exit code 1 as claimed. -/
theorem c5_counterexample :
    mainExitCode c5Input =
      .panicked (.setAccountID "denied")
        ⟨[.accountIDError "aws_instance" "denied"], [], [], [], []⟩ ∧
    processExitCode (mainExitCode c5Input) = 2 ∧
    processExitCode (mainExitCode c5Input) ≠ 1 := by decide

/-- C5 (amended): for every run that reaches the per-type client loop, if
some client's account-identity resolution fails, the whole run is aborted
(not skipped per-client): an error message is printed to the error stream
and the process panics, terminating with the Go panic exit status 2 rather
than with exit code 1. -/
theorem c5_account_id_failure_panics (i : SetupInput)
    (clients : List ClientBehavior)
    (providers : List (AWSClientKey × ProviderBehavior))
    (t : String) (ts : List String)
    (hver : i.versionFlag = false)
    (hmx : (i.profilesFlag.isSome && i.allProfilesFlag) = false)
    (hpr : ∃ ps, resolveProfiles i = .ok ps)
    (hcp : i.clientPool = .ok clients)
    (hpp : i.providerPool = .ok providers)
    (hm : MatchSupportedTypes i.registry "aws_instance" = some (t :: ts))
    (hfail : ∃ c ∈ clients, c.setAccountIDError ≠ none) :
    ∃ m out, mainExitCode i = .panicked (.setAccountID m) out ∧
      .accountIDError t m ∈ out.stderr ∧
      processExitCode (mainExitCode i) = 2 := by
  obtain ⟨ps, hps⟩ := hpr
  obtain ⟨m, o, ho, hmem⟩ :=
    processTypes_panicked "aws_instance" ["private_ip", "public_ip", "tags"]
      clients providers t ts emptyOutput hfail
  have hprr : printResource "aws_instance" ["private_ip", "public_ip", "tags"]
      clients providers i.registry = .panicked (.setAccountID m) o := by
    simp only [printResource, hm]
    simpa using ho
  have hme : mainExitCode i = .panicked (.setAccountID m) o := by
    simp [mainExitCode, hver, hmx, hps, hcp, hpp, hprr]
  exact ⟨m, o, hme, hmem, by rw [hme]; rfl⟩

/-- C5 witness: the amended theorem at the concrete input whose sole client
fails account-identity resolution. -/
theorem c5_account_id_failure_panics_witness :
    (c5Input.versionFlag = false ∧
      (c5Input.profilesFlag.isSome && c5Input.allProfilesFlag) = false ∧
      c5Input.clientPool = .ok [clientDenied] ∧
      c5Input.providerPool = .ok [(kA, provNone)] ∧
      MatchSupportedTypes c5Input.registry "aws_instance" =
        some ("aws_instance" :: [])) ∧
    (∃ m out, mainExitCode c5Input = .panicked (.setAccountID m) out ∧
      .accountIDError "aws_instance" m ∈ out.stderr ∧
      processExitCode (mainExitCode c5Input) = 2) :=
  ⟨⟨by decide, by decide, by decide, by decide, by decide⟩,
   c5_account_id_failure_panics c5Input [clientDenied] [(kA, provNone)]
     "aws_instance" [] (by decide) (by decide) ⟨[], by decide⟩ (by decide)
     (by decide) (by decide) ⟨clientDenied, by decide, by decide⟩⟩

/-- C10: whenever the version flag is off, the flags are not mutually
exclusive, profile discovery succeeds and both pools are built — and the run
does not panic — the process exits with code 0, regardless of how many
per-type or per-client errors occurred on the way. -/
theorem c10_setup_ok_exits_zero (i : SetupInput)
    (hver : i.versionFlag = false)
    (hmx : (i.profilesFlag.isSome && i.allProfilesFlag) = false)
    (hpr : ∃ ps, resolveProfiles i = .ok ps)
    (hcp : ∃ cs, i.clientPool = .ok cs)
    (hpp : ∃ pp, i.providerPool = .ok pp)
    (hnp : isPanicked (mainExitCode i) = false) :
    ∃ out, mainExitCode i = .exited 0 out ∧
      processExitCode (mainExitCode i) = 0 := by
  obtain ⟨ps, hps⟩ := hpr
  obtain ⟨cs, hcs⟩ := hcp
  obtain ⟨pp, hppe⟩ := hpp
  simp only [mainExitCode, hver, hmx, hps, hcs, hppe] at hnp ⊢
  cases hr : printResource "aws_instance" ["private_ip", "public_ip", "tags"]
      cs pp i.registry with
  | ok out => refine ⟨out, ?_, ?_⟩ <;> simp [processExitCode]
  | panicked r out =>
    rw [hr] at hnp
    simp [isPanicked] at hnp

/-- C10 witness: a run in which the sole client's resource listing fails (a
per-client error) still exits 0. -/
theorem c10_setup_ok_exits_zero_witness :
    (c10Input.versionFlag = false ∧
      (c10Input.profilesFlag.isSome && c10Input.allProfilesFlag) = false ∧
      isPanicked (mainExitCode c10Input) = false) ∧
    (∃ out, mainExitCode c10Input = .exited 0 out ∧
      processExitCode (mainExitCode c10Input) = 0) :=
  ⟨⟨by decide, by decide, by decide⟩,
   c10_setup_ok_exits_zero c10Input (by decide) (by decide) ⟨[], by decide⟩
     ⟨[clientListErrA], by decide⟩ ⟨[(kA, provTags)], by decide⟩ (by decide)⟩

/-- C2 (counterexample): with the glob pattern `aws_i*` matching the two
types `aws_instance` and `aws_iam_role`, both with non-empty collections,
both CSV writes go to `aws-resources/aws_i*.csv` — the file is named after
the pattern, not the resource type, no file is written at
`aws-resources/aws_instance.csv`, and the second write overwrites the
first; this refutes "exactly one output file at `aws-resources/<type>.csv`
per matched type". -/
theorem c2_counterexample :
    ((runOutput (printResource "aws_i*" ["tags"] [clientTwoTypes]
        [(kA, provNone)] regTwo)).fileWrites.map (fun w => w.path)) =
      ["aws-resources/aws_i*.csv", "aws-resources/aws_i*.csv"] ∧
    ((runOutput (printResource "aws_i*" ["tags"] [clientTwoTypes]
        [(kA, provNone)] regTwo)).fileWrites.all
      (fun w => w.path != "aws-resources/aws_instance.csv")) = true := by decide

/-- C2 (amended): for every matched resource type with a non-empty resource
collection, one file write occurs, at path `aws-resources/<pattern>.csv` —
named after the processed pattern, not the type — containing the header row
`TYPE,ID,CREATED` followed by the requested attribute names and then one row
per resource; the directory is created before each write, and since every
matched type shares the same path, a later type's write fully overwrites an
earlier one's (`os.Create` truncates). -/
theorem c2_per_pattern_file (pattern : String) (attributes : List String)
    (clients : List ClientBehavior)
    (providers : List (AWSClientKey × ProviderBehavior))
    (registry matched : List String)
    (hv : MatchSupportedTypes registry pattern = some matched)
    (hnp : ∀ c ∈ clients, c.setAccountIDError = none) :
    ∃ out, printResource pattern attributes clients providers registry = .ok out ∧
      out.fileWrites =
        (matched.filter (typeNonEmpty attributes providers clients)).map
          (fun t => ⟨"aws-resources/" ++ pattern ++ ".csv",
            headerRow attributes ::
              (typeResources attributes providers clients t).map
                (formatRow (typeHasAttrs attributes providers clients t)
                  attributes)⟩) ∧
      out.mkdirs =
        (matched.filter (typeNonEmpty attributes providers clients)).map
          (fun _ => "aws-resources") := by
  refine ⟨runSpec pattern attributes clients providers matched,
    printResource_eq pattern attributes clients providers registry matched hv hnp,
    ?_, rfl⟩
  simp [runSpec, typeWrite, printResourcesCsv]

/-- C2 witness: the amended theorem at the concrete two-type glob input. -/
theorem c2_per_pattern_file_witness :
    (MatchSupportedTypes regTwo "aws_i*" = some ["aws_instance", "aws_iam_role"]) ∧
    (∃ out, printResource "aws_i*" ["tags"] [clientTwoTypes] [(kA, provNone)]
        regTwo = .ok out ∧
      out.fileWrites =
        ((["aws_instance", "aws_iam_role"] : List String).filter
            (typeNonEmpty ["tags"] [(kA, provNone)] [clientTwoTypes])).map
          (fun t => ⟨"aws-resources/" ++ "aws_i*" ++ ".csv",
            headerRow ["tags"] ::
              (typeResources ["tags"] [(kA, provNone)] [clientTwoTypes] t).map
                (formatRow (typeHasAttrs ["tags"] [(kA, provNone)] [clientTwoTypes] t)
                  ["tags"])⟩) ∧
      out.mkdirs =
        ((["aws_instance", "aws_iam_role"] : List String).filter
            (typeNonEmpty ["tags"] [(kA, provNone)] [clientTwoTypes])).map
          (fun _ => "aws-resources")) :=
  ⟨by decide,
   c2_per_pattern_file "aws_i*" ["tags"] [clientTwoTypes] [(kA, provNone)] regTwo
     ["aws_instance", "aws_iam_role"] (by decide) (by decide)⟩

/-- C3 (counterexample): the sole client fetches one resource successfully,
its schema query fails, the failure is reported — but the client's
already-fetched resources are dropped: nothing is exported at all (no file
write), refuting "still exported with unsupported-attribute sentinels". -/
theorem c3_counterexample :
    listFor clientOkA "aws_instance" = .ok [resA] ∧
    printResource "aws_instance" ["tags"] [clientOkA] [(kA, provSchemaErr)]
        ["aws_instance"] =
      .ok ⟨[.hasAttributesError "schema boom"], [], [], [], []⟩ := by decide

/-- C3 (amended): for every client whose schema query fails for the current
resource type, the failure is reported to the error stream and processing
continues with the next client (the run still completes normally), but that
client's already-fetched resources are dropped from the output — its
contribution to the exported collection is empty. -/
theorem c3_schema_failure_drops_resources (pattern : String)
    (attributes : List String) (clients : List ClientBehavior)
    (providers : List (AWSClientKey × ProviderBehavior))
    (registry matched : List String) (c : ClientBehavior) (t : String)
    (rs : List Resource) (m : String)
    (hv : MatchSupportedTypes registry pattern = some matched)
    (hnp : ∀ x ∈ clients, x.setAccountIDError = none)
    (hc : c ∈ clients) (ht : t ∈ matched)
    (hl : listFor c t = .ok rs)
    (hs : HasAttributes attributes t (providerFor providers c.key) = .err m) :
    ∃ out, printResource pattern attributes clients providers registry = .ok out ∧
      .hasAttributesError m ∈ out.stderr ∧
      clientContribution t attributes providers c = [] := by
  refine ⟨runSpec pattern attributes clients providers matched,
    printResource_eq pattern attributes clients providers registry matched hv hnp,
    ?_, ?_⟩
  · show _ ∈ (if matched.isEmpty then [StderrMsg.noResourceTypeFound pattern]
      else []) ++ matched.flatMap (typeStderr attributes providers clients)
    apply List.mem_append_right
    refine List.mem_flatMap.mpr ⟨t, ht, ?_⟩
    show _ ∈ clients.flatMap (clientStderr t attributes providers)
    refine List.mem_flatMap.mpr ⟨c, hc, ?_⟩
    simp [clientStderr, hl, hs]
  · simp [clientContribution, hl, hs]

/-- C3 witness: the amended theorem at the concrete schema-failure input. -/
theorem c3_schema_failure_drops_resources_witness :
    (MatchSupportedTypes ["aws_instance"] "aws_instance" = some ["aws_instance"] ∧
      listFor clientOkA "aws_instance" = .ok [resA] ∧
      HasAttributes ["tags"] "aws_instance"
          (providerFor [(kA, provSchemaErr)] clientOkA.key) = .err "schema boom") ∧
    (∃ out, printResource "aws_instance" ["tags"] [clientOkA]
        [(kA, provSchemaErr)] ["aws_instance"] = .ok out ∧
      .hasAttributesError "schema boom" ∈ out.stderr ∧
      clientContribution "aws_instance" ["tags"] [(kA, provSchemaErr)]
        clientOkA = []) :=
  ⟨⟨by decide, by decide, by decide⟩,
   c3_schema_failure_drops_resources "aws_instance" ["tags"] [clientOkA]
     [(kA, provSchemaErr)] ["aws_instance"] ["aws_instance"] clientOkA
     "aws_instance" [resA] "schema boom" (by decide) (by decide) (by decide)
     (by decide) (by decide) (by decide)⟩

/-- One client triggers a `resource.GetStates` invocation exactly when its
listing succeeds and its schema query returns a non-empty support map. -/
theorem clientHyd_ne_nil (rType : String) (attributes : List String)
    (providers : List (AWSClientKey × ProviderBehavior)) (c : ClientBehavior) :
    clientHyd rType attributes providers c ≠ [] ↔
      ∃ rs s, listFor c rType = .ok rs ∧
        HasAttributes attributes rType (providerFor providers c.key) = .ok s ∧
        s ≠ [] := by
  unfold clientHyd
  cases hl : listFor c rType with
  | err m => simp
  | ok res =>
    cases hs : HasAttributes attributes rType (providerFor providers c.key) with
    | err m => simp
    | ok s =>
      by_cases s_nil : s = []
      · subst s_nil; simp
      · simp [s_nil, List.isEmpty_iff]

/-- When no client's schema query returns a non-empty support map, the
`hasAttrs` fold over the clients ends empty. -/
theorem foldl_update_nil (rType : String) (attributes : List String)
    (providers : List (AWSClientKey × ProviderBehavior)) :
    ∀ clients : List ClientBehavior,
      (∀ c ∈ clients, ∀ s,
        HasAttributes attributes rType (providerFor providers c.key) = .ok s →
        s = []) →
      clients.foldl (updateHasAttrs rType attributes providers) [] = [] := by
  intro clients
  induction clients with
  | nil => intro _; rfl
  | cons c cs ih =>
    intro h
    have hstep : updateHasAttrs rType attributes providers [] c = [] := by
      unfold updateHasAttrs
      cases hl : listFor c rType with
      | err m => rfl
      | ok res =>
        cases hs : HasAttributes attributes rType (providerFor providers c.key) with
        | err m => rfl
        | ok s => exact h c (List.mem_cons_self c cs) s hs
    rw [List.foldl_cons, hstep]
    exact ih (fun c' hc' s hs => h c' (List.mem_cons_of_mem c hc') s hs)

/-- C1 (counterexample): the sole client's provider supports the requested
attribute `tags`, yet `resource.GetStates` is never invoked because the
client's listing fails — refuting the claim's "if and only if at least one
requested attribute is supported by at least one client's provider". -/
theorem c1_counterexample :
    (runOutput (printResource "aws_instance" ["tags"] [clientListErrA]
        [(kA, provTags)] ["aws_instance"])).hydrations = [] ∧
    providerSupportsSome [(kA, provTags)] kA "aws_instance" ["tags"] = true := by
  decide

/-- C1 (amended): for every resource type, `resource.GetStates` is invoked
if and only if at least one client whose listing succeeds has a schema query
returning a non-empty support map; and when no client's schema query returns
any supported attribute, no resource is hydrated (state beyond
type/id/createdAt stays unset), the exported support map is empty, and every
attribute column of every exported row reads `N/A`. -/
theorem c1_hydration_iff (pattern rType : String) (attributes : List String)
    (providers : List (AWSClientKey × ProviderBehavior))
    (clients : List ClientBehavior) (st : ClientLoopResult)
    (h : processClients rType attributes providers clients cl0 = .ok st) :
    (st.hydrations ≠ [] ↔
      ∃ c ∈ clients, ∃ rs s, listFor c rType = .ok rs ∧
        HasAttributes attributes rType (providerFor providers c.key) = .ok s ∧
        s ≠ []) ∧
    ((∀ c ∈ clients, ∀ s,
        HasAttributes attributes rType (providerFor providers c.key) = .ok s →
        s = []) →
      st.hasAttrs = [] ∧
      ((∀ c ∈ clients, ∀ rs, listFor c rType = .ok rs → ∀ x ∈ rs,
          x.hydrated = false) →
        ∀ x ∈ st.resources, x.hydrated = false) ∧
      (printResourcesCsv pattern st.resources st.hasAttrs attributes).1.rows =
        headerRow attributes ::
          st.resources.map (fun r =>
            [r.rtype, r.id, r.createdAt.getD ""] ++
              attributes.map (fun _ => "N/A"))) := by
  have hnp := processClients_ok_none rType attributes providers clients cl0 st h
  rw [processClients_eq rType attributes providers clients cl0 hnp] at h
  injection h with h'
  subst h'
  simp only [cl0, List.nil_append]
  refine ⟨?_, fun hNoSup => ?_⟩
  · rw [ne_eq, List.flatMap_eq_nil_iff]
    push_neg
    exact exists_congr fun c => and_congr_right fun _ =>
      clientHyd_ne_nil rType attributes providers c
  · have hha := foldl_update_nil rType attributes providers clients hNoSup
    refine ⟨hha, ?_, ?_⟩
    · intro hUnhyd x hx
      obtain ⟨c, hc, hxc⟩ := List.mem_flatMap.mp hx
      revert hxc
      unfold clientContribution
      cases hl : listFor c rType with
      | err m => intro hxc; simp at hxc
      | ok res =>
        cases hs : HasAttributes attributes rType (providerFor providers c.key) with
        | err m => intro hxc; simp at hxc
        | ok s =>
          have hse : s = [] := hNoSup c hc s hs
          subst hse
          intro hxc
          simp at hxc
          exact hUnhyd c hc res hl x hxc
    · have hav : ∀ (r : Resource) (a : String), attrValue [] r a = "N/A" := by
        intro r a; simp [attrValue]
      rw [hha]
      simp only [printResourcesCsv]
      have hfr : formatRow ([] : List String) attributes = fun r =>
          [r.rtype, r.id, r.createdAt.getD ""] ++
            attributes.map (fun _ => "N/A") := by
        funext r
        have hconst : attrValue [] r = fun _ => "N/A" := funext fun a => hav r a
        simp [formatRow, hconst]
      rw [hfr]

/-- C1 witness: the amended theorem at a concrete input whose sole client
lists one resource but whose provider supports nothing. -/
theorem c1_hydration_iff_witness :
    processClients "aws_instance" ["tags"] [(kA, provNone)] [clientOkA] cl0 =
      .ok c1St ∧
    ((c1St.hydrations ≠ [] ↔
        ∃ c ∈ [clientOkA], ∃ rs s, listFor c "aws_instance" = .ok rs ∧
          HasAttributes ["tags"] "aws_instance"
            (providerFor [(kA, provNone)] c.key) = .ok s ∧ s ≠ []) ∧
      ((∀ c ∈ [clientOkA], ∀ s,
          HasAttributes ["tags"] "aws_instance"
            (providerFor [(kA, provNone)] c.key) = .ok s → s = []) →
        c1St.hasAttrs = [] ∧
        ((∀ c ∈ [clientOkA], ∀ rs, listFor c "aws_instance" = .ok rs →
            ∀ x ∈ rs, x.hydrated = false) →
          ∀ x ∈ c1St.resources, x.hydrated = false) ∧
        (printResourcesCsv "aws_instance" c1St.resources c1St.hasAttrs
            ["tags"]).1.rows =
          headerRow ["tags"] ::
            c1St.resources.map (fun r =>
              [r.rtype, r.id, r.createdAt.getD ""] ++
                ["tags"].map (fun _ => "N/A")))) :=
  ⟨by decide,
   c1_hydration_iff "aws_instance" "aws_instance" ["tags"] [(kA, provNone)]
     [clientOkA] c1St (by decide)⟩

end Awsls
